import Mathlib

/-!
Shallow embedding of the MIBiG sideloading module
(`antismash/detection/mibig/mibig.py` and
`antismash/detection/mibig/html_output.py`).

Python dictionaries with optional keys are embedded as structures with
`Option`-typed fields (`none` = key absent); Python truthiness of an
optional string is the explicit `truthy` predicate below. The remote
taxonomy fetch is embedded as an oracle `Nat → Option (List Taxon)`
mapping the attempt number to the fetched lineage (`none` = the attempt
raised). Machine effects that the claims mention (number of fetch
attempts, sleeps, cache writes) are carried explicitly in result
structures.
-/

set_option maxHeartbeats 1000000

namespace MibigModel

/-- One lineage element, as built in `get_ncbi_taxonomy`
(`mibig.py` line 178): `{"name": name, "taxid": taxid, "rank": rank}`. -/
structure Taxon where
  name : String
  taxid : String
  rank : String
deriving DecidableEq, Repr

/-- The post-fetch reordering of `get_ncbi_taxonomy` (`mibig.py` lines
184-185): `if len(taxonomy) > 1: taxonomy.append(taxonomy.pop(0))` —
pop the first element and append it at the end, only when the list has
more than one element. -/
def shuffleSpeciesToEnd (taxonomy : List Taxon) : List Taxon :=
  if taxonomy.length > 1 then
    match taxonomy with
    | [] => []
    | x :: rest => rest ++ [x]
  else
    taxonomy

/-- Observable outcome of the retry loop of `get_ncbi_taxonomy`:
the lineage produced, how many fetch attempts were made, and how many
`time.sleep(5)` calls were executed. -/
structure FetchOutcome where
  taxonomy : List Taxon
  attempts : Nat
  sleeps : Nat
deriving DecidableEq, Repr

/-- The retry loop of `get_ncbi_taxonomy` (`mibig.py` lines 169-183):
`num_try = 1; while num_try < 6:` try the fetch; on success `break`
(no increment, no sleep); on any exception `pass`, then
`num_try += 1; time.sleep(5)`. The oracle maps the attempt number
(`num_try`) to `some lineage` on success or `none` when the attempt
raises. -/
def retryFrom (oracle : Nat → Option (List Taxon)) (numTry : Nat) : FetchOutcome :=
  if numTry < 6 then
    match oracle numTry with
    | some tax => ⟨tax, 1, 0⟩
    | none =>
      let rest := retryFrom oracle (numTry + 1)
      ⟨rest.taxonomy, rest.attempts + 1, rest.sleeps + 1⟩
  else
    ⟨[], 0, 0⟩
termination_by 6 - numTry

/-- Embeds `get_ncbi_taxonomy` (`mibig.py` lines 165-187): run the retry loop
starting at `num_try = 1`, then apply the "shuffle species to the end"
reordering to whatever lineage resulted (the initial `taxonomy = []`
when every attempt failed). -/
def get_ncbi_taxonomy (oracle : Nat → Option (List Taxon)) : FetchOutcome :=
  let out := retryFrom oracle 1
  { out with taxonomy := shuffleSpeciesToEnd out.taxonomy }

theorem retryFrom_of_ge (oracle : Nat → Option (List Taxon)) (t : Nat)
    (h : ¬ t < 6) : retryFrom oracle t = ⟨[], 0, 0⟩ := by
  rw [retryFrom]
  simp [h]

theorem retryFrom_of_success (oracle : Nat → Option (List Taxon)) (t : Nat)
    (ht : t < 6) (l : List Taxon) (h : oracle t = some l) :
    retryFrom oracle t = ⟨l, 1, 0⟩ := by
  rw [retryFrom]
  simp [ht, h]

theorem retryFrom_of_fail (oracle : Nat → Option (List Taxon)) (t : Nat)
    (ht : t < 6) (h : oracle t = none) :
    retryFrom oracle t =
      ⟨(retryFrom oracle (t + 1)).taxonomy,
       (retryFrom oracle (t + 1)).attempts + 1,
       (retryFrom oracle (t + 1)).sleeps + 1⟩ := by
  rw [retryFrom]
  simp [ht, h]

theorem retryFrom_attempts_le (oracle : Nat → Option (List Taxon)) :
    ∀ n t, 6 - t ≤ n → (retryFrom oracle t).attempts ≤ n := by
  intro n
  induction n with
  | zero =>
    intro t ht
    have h6 : ¬ t < 6 := by omega
    rw [retryFrom_of_ge oracle t h6]
  | succ n ih =>
    intro t ht
    by_cases h6 : t < 6
    · cases hc : oracle t with
      | some l => rw [retryFrom_of_success oracle t h6 l hc]; simp
      | none =>
        rw [retryFrom_of_fail oracle t h6 hc]
        have := ih (t + 1) (by omega)
        simpa using Nat.succ_le_succ this
    · rw [retryFrom_of_ge oracle t h6]
      exact Nat.zero_le _

theorem retryFrom_all_fail (oracle : Nat → Option (List Taxon)) :
    ∀ n t, 6 - t = n → (∀ j, t ≤ j → j < 6 → oracle j = none) →
      retryFrom oracle t = ⟨[], 6 - t, 6 - t⟩ := by
  intro n
  induction n with
  | zero =>
    intro t ht _
    have h6 : ¬ t < 6 := by omega
    rw [retryFrom_of_ge oracle t h6]
    simp [Nat.sub_eq_zero_of_le (by omega : 6 ≤ t)]
  | succ n ih =>
    intro t ht hall
    have h6 : t < 6 := by omega
    rw [retryFrom_of_fail oracle t h6 (hall t le_rfl h6)]
    rw [ih (t + 1) (by omega) (fun j hj hj6 => hall j (by omega) hj6)]
    have : 6 - t = (6 - (t + 1)) + 1 := by omega
    simp [this]

theorem retryFrom_first_success (oracle : Nat → Option (List Taxon)) :
    ∀ n t k l, k - t = n → t ≤ k → k < 6 → oracle k = some l →
      (∀ j, t ≤ j → j < k → oracle j = none) →
      retryFrom oracle t = ⟨l, k - t + 1, k - t⟩ := by
  intro n
  induction n with
  | zero =>
    intro t k l hn htk hk hok _
    have : t = k := by omega
    subst this
    rw [retryFrom_of_success oracle t hk l hok]
    simp [hn]
  | succ n ih =>
    intro t k l hn htk hk hok hfail
    have h6 : t < 6 := by omega
    have htlt : t < k := by omega
    rw [retryFrom_of_fail oracle t h6 (hfail t le_rfl htlt)]
    rw [ih (t + 1) k l (by omega) (by omega) hk hok
      (fun j hj hjk => hfail j (by omega) hjk)]
    have h1 : k - t = (k - (t + 1)) + 1 := by omega
    simp [h1]

/-- The `"taxonomy"` sub-dictionary of the cache file: taxon id → lineage
(JSON object keys are strings). -/
abbrev TaxMap := List (String × List Taxon)

/-- The parsed cache file: `taxonomy = none` embeds a cache dict without
the `"taxonomy"` key (`mibig.py` lines 143-144 install `{}` in that
case). -/
structure CachedData where
  taxonomy : Option TaxMap
deriving DecidableEq, Repr

/-- Observable outcome of `load_cached_information`: the final
`cached["taxonomy"]` mapping, the remote fetch attempts and sleeps
performed, and the mapping written back to the cache file (`none` when
`update` is false and nothing is written). -/
structure LoadOutcome where
  cached : TaxMap
  fetchAttempts : Nat
  sleeps : Nat
  saved : Option TaxMap
deriving DecidableEq, Repr

/-- Embeds `load_cached_information` (`mibig.py` lines 130-156), restricted to
the fields the code reads: ensure the `"taxonomy"` key exists, fetch the
lineage for `taxId` only when it is not already cached, then (when
`update`) write the whole mapping back via `save_cached_information`. -/
def load_cached_information (taxId : String) (cached0 : CachedData)
    (oracle : Nat → Option (List Taxon)) (update : Bool) : LoadOutcome :=
  let taxMap0 := cached0.taxonomy.getD []
  match taxMap0.lookup taxId with
  | some _ =>
    ⟨taxMap0, 0, 0, if update then some taxMap0 else none⟩
  | none =>
    let fetched := get_ncbi_taxonomy oracle
    let taxMap1 := taxMap0 ++ [(taxId, fetched.taxonomy)]
    ⟨taxMap1, fetched.attempts, fetched.sleeps,
     if update then some taxMap1 else none⟩

theorem lookup_append_right (m : TaxMap) (k : String) (v : List Taxon)
    (h : m.lookup k = none) : (m ++ [(k, v)]).lookup k = some v := by
  induction m with
  | nil => simp [List.lookup]
  | cons p rest ih =>
    rw [List.lookup] at h
    by_cases hk : k == p.1
    · simp [hk] at h
    · rw [List.cons_append, List.lookup]
      simp only [hk]
      exact ih (by simpa [hk] using h)

/-- Embeds `FeatureLocation(start, end, strand)` from
`antismash.common.secmet.locations`: a 0-based half-open span. The
Python `end` argument is embedded as `stop` (`end` is reserved in
Lean). -/
structure FeatureLocation where
  start : Int
  stop : Int
  strand : Option Int
deriving DecidableEq, Repr

/-- A feature location as built by `mibig_loader` (`mibig.py` line
106): `CompoundLocation(exons) if len(exons) > 1 else exons[0]`. -/
inductive Location where
  | simple (part : FeatureLocation)
  | compound (parts : List FeatureLocation)
deriving DecidableEq, Repr

/-- The `loci` object of the curated document: `accession` is a required key,
`start_coord`/`end_coord` are optional (`none` = key absent). -/
structure Loci where
  accession : String
  start_coord : Option Int
  end_coord : Option Int
deriving DecidableEq, Repr

/-- One element of the `functions` list of a gene annotation entry
(`html_output.py` lines 72-81 read `category` and `evidence`). -/
structure GeneFunction where
  category : String
  evidence : List String
deriving DecidableEq, Repr

/-- One entry of `data["cluster"]["genes"]["annotations"]`: `id` is
accessed unconditionally (`annot["id"]`), `name` / `product` /
`tailoring` / `mut_pheno` via key-presence checks, `functions` via
`annot.get("functions", [])` (absence embedded as `[]`). -/
structure GeneAnnotationEntry where
  id : String
  name : Option String
  product : Option String
  functions : List GeneFunction
  tailoring : Option (List String)
  mut_pheno : Option String
deriving DecidableEq, Repr

/-- One exon of the location of an extra gene. `mibig_loader` reads only
`exon["start"]` and `exon["end"]`; the `strand` field carried by the
curated data model is kept here (unread by the loader). `end` is
embedded as `stop`. -/
structure Exon where
  start : Int
  stop : Int
  strand : Option Int
deriving DecidableEq, Repr

/-- The `gene["location"]` object of an extra gene: the exon list plus the single
location-level strand the loader reads (`gene["location"]["strand"]`,
`mibig.py` line 105). -/
structure GeneLocation where
  exons : List Exon
  strand : Option Int
deriving DecidableEq, Repr

/-- One entry of `data["cluster"]["genes"]["extra_genes"]`. -/
structure ExtraGene where
  id : Option String
  location : Option GeneLocation
  translation : Option String
deriving DecidableEq, Repr

/-- The `"genes"` sub-object of the cluster; both keys are read with
`.get(..., [])` so absence is embedded as the empty list. -/
structure Genes where
  annotations : List GeneAnnotationEntry
  extra_genes : List ExtraGene
deriving DecidableEq, Repr

/-- The `data["cluster"]` object, restricted to the fields the module reads.
`genes = none` embeds a cluster without the `"genes"` key
(`mibig.py` line 100 checks `if "genes" in data["cluster"]`). -/
structure Cluster where
  biosyn_class : List String
  loci : Loci
  genes : Option Genes
  ncbi_tax_id : String
deriving DecidableEq, Repr

/-- The parsed curated annotation document (`data`). -/
structure Document where
  cluster : Cluster
deriving DecidableEq, Repr

/-- Embeds `data["cluster"].get("genes", {}).get("annotations", [])`. -/
def Cluster.gene_annotations (c : Cluster) : List GeneAnnotationEntry :=
  (c.genes.map Genes.annotations).getD []

/-- Embeds `data["cluster"].get("genes", {}).get("extra_genes", [])`. -/
def Cluster.extra_gene_entries (c : Cluster) : List ExtraGene :=
  (c.genes.map Genes.extra_genes).getD []

/-- The genome record, restricted to what the module reads:
`record.id` and `len(record.seq)`. -/
structure Record where
  id : String
  seqLength : Nat
deriving DecidableEq, Repr

/-- Embeds `SubRegion(location, tool, label)` as constructed by the module. -/
structure SubRegion where
  location : FeatureLocation
  tool : String
  label : String
deriving DecidableEq, Repr

/-- The prior-run signature produced by `MibigAnnotations.to_json`
(`mibig.py` lines 37-45): record id, the coordinate pair with `-1` as
the "not set" sentinel, and the stored entry lists. -/
structure PrevResult where
  record_id : String
  coords : Int × Int
  gene_annotations : List GeneAnnotationEntry
  extra_genes : List ExtraGene
deriving DecidableEq, Repr

/-- Embeds `MibigAnnotations.to_json` (`mibig.py` lines 37-45): the signature
persisted for the next run, with absent coordinates saved as the `-1`
sentinel. -/
def to_json (data : Document) : PrevResult :=
  { record_id := data.cluster.loci.accession,
    coords := (data.cluster.loci.start_coord.getD (-1),
               data.cluster.loci.end_coord.getD (-1)),
    gene_annotations := data.cluster.gene_annotations,
    extra_genes := data.cluster.extra_gene_entries }

/-- Which reuse check of `MibigAnnotations.from_json` failed first
(`mibig.py` lines 57-70). -/
inductive ReuseFailure where
  | recordIdMismatch
  | coordsMismatch
  | geneAnnotationsChanged
  | extraGenesChanged
deriving DecidableEq, Repr

/-- The `logging.debug` text emitted by each failing branch; note the
third and fourth branches log the same text in the source. -/
def ReuseFailure.logMessage : ReuseFailure → String
  | .recordIdMismatch => "Previous result\x27s record_id is not the same as the new one"
  | .coordsMismatch => "Previous result\x27s start/end coordinate is not the same as the new one"
  | .geneAnnotationsChanged => "Updated gene annotations"
  | .extraGenesChanged => "Updated gene annotations"

/-- The reuse decision of `MibigAnnotations.from_json` (`mibig.py`
lines 52-70): the `if`/`elif` chain comparing the newly loaded document
against the prior signature; `none` means every check passed
(`can_reuse` stays `True`), `some r` names the first failing check. -/
def checkReuse (data : Document) (prev : PrevResult) : Option ReuseFailure :=
  let loci := data.cluster.loci
  if loci.accession ≠ prev.record_id then
    some .recordIdMismatch
  else if loci.start_coord.getD (-1) ≠ prev.coords.1 ∨
      loci.end_coord.getD (-1) ≠ prev.coords.2 then
    some .coordsMismatch
  else if data.cluster.gene_annotations.length ≠ prev.gene_annotations.length then
    some .geneAnnotationsChanged
  else if data.cluster.extra_gene_entries.length ≠ prev.extra_genes.length then
    some .extraGenesChanged
  else
    none

/-- The assertion of `MibigAnnotations.__init__` (`mibig.py` line 27):
`(loci["accession"] == record_id) or
(loci["accession"].split("MIBIG:")[-1] == record_id)`. -/
def accessionMatches (accession record_id : String) : Bool :=
  accession == record_id || ((accession.splitOn "MIBIG:").getLastD accession == record_id)

/-- The result object `MibigAnnotations` (`mibig.py` lines 21-32):
the record id, the computed area, the raw document, and the taxonomy
lineage read from the (freshly updated) cache. -/
structure MibigAnnotations where
  record_id : String
  area : SubRegion
  data : Document
  taxonomy : List Taxon
deriving DecidableEq, Repr

/-- Embeds `MibigAnnotations.__init__` (`mibig.py` lines 22-32): `none` stands for
the `AssertionError` raised when the accession does not match the
record id; otherwise the cache is consulted/updated and the lineage for
the taxon id of the document is stored on the result. -/
def MibigAnnotations.make (record_id : String) (area : SubRegion) (data : Document)
    (cached0 : CachedData) (oracle : Nat → Option (List Taxon)) :
    Option MibigAnnotations :=
  if accessionMatches data.cluster.loci.accession record_id then
    let out := load_cached_information data.cluster.ncbi_tax_id cached0 oracle true
    some { record_id := record_id, area := area, data := data,
           taxonomy := (out.cached.lookup data.cluster.ncbi_tax_id).getD [] }
  else
    none

/-- The observable outcome of `MibigAnnotations.from_json`: a value
returned to the caller (of the Python `Optional` type), a
`sys.exit(code)`, or an uncaught `AssertionError` from
`MibigAnnotations.__init__`. -/
inductive FromJsonOutcome where
  | returned (result : Option MibigAnnotations)
  | exited (code : Nat)
  | assertionFailed
deriving DecidableEq, Repr

/-- Embeds `MibigAnnotations.from_json` (`mibig.py` lines 47-83): run the
reuse checks; on any failure `sys.exit(1)`; otherwise build the area
from the loci (start defaulting to 1, end to the record length) and
construct the result. -/
def MibigAnnotations.from_json (prev : PrevResult) (record : Record) (data : Document)
    (cached0 : CachedData) (oracle : Nat → Option (List Taxon)) : FromJsonOutcome :=
  match checkReuse data prev with
  | some _ => .exited 1
  | none =>
    let loci := data.cluster.loci
    let product := String.intercalate ", " data.cluster.biosyn_class
    let loci_region : FeatureLocation :=
      ⟨loci.start_coord.getD 1 - 1, loci.end_coord.getD (record.seqLength : Int), none⟩
    let area : SubRegion := ⟨loci_region, "mibig", product⟩
    match MibigAnnotations.make record.id area data cached0 oracle with
    | some result => .returned (some result)
    | none => .assertionFailed

/-- C7: the lineage reordering moves the first (leaf) entry to the end
of the list, leaving the relative order of all other entries unchanged:
`shuffleSpeciesToEnd (x :: y :: rest) = (y :: rest) ++ [x]`, so
`[species, genus, family]` becomes `[genus, family, species]`. -/
theorem c7_leaf_moved_to_end (x y : Taxon) (rest : List Taxon) :
    shuffleSpeciesToEnd (x :: y :: rest) = (y :: rest) ++ [x] := by
  simp [shuffleSpeciesToEnd]

/-- C6: on a cache miss, the lineage fetch makes at most 5 attempts;
if every attempt 1..5 fails it returns the empty lineage (the embedding
is a total function: the bare `except` absorbs every failure kind
uniformly, so no exception escapes) after 5 attempts and 5 sleeps of 5
time-units (one after each failed attempt); if attempt `k` is the first
to succeed, the loop stops after exactly `k` attempts (with `k - 1`
sleeps, one per failed attempt) and the successful lineage — after the
species-to-end reordering of C7 — is the result; and on a miss
`load_cached_information` persists exactly that result for the taxon
id. -/
theorem c6_retry_policy (oracle : Nat → Option (List Taxon)) :
    (get_ncbi_taxonomy oracle).attempts ≤ 5 ∧
    ((∀ j, 1 ≤ j → j < 6 → oracle j = none) →
      get_ncbi_taxonomy oracle = ⟨[], 5, 5⟩) ∧
    (∀ k l, 1 ≤ k → k < 6 → oracle k = some l →
      (∀ j, 1 ≤ j → j < k → oracle j = none) →
      get_ncbi_taxonomy oracle = ⟨shuffleSpeciesToEnd l, k, k - 1⟩) ∧
    (∀ taxId cached0, ((cached0.taxonomy.getD []).lookup taxId = none) →
      ((load_cached_information taxId cached0 oracle true).cached.lookup taxId
          = some (get_ncbi_taxonomy oracle).taxonomy ∧
        (load_cached_information taxId cached0 oracle true).saved
          = some (load_cached_information taxId cached0 oracle true).cached)) := by
  refine ⟨?_, ?_, ?_, ?_⟩
  · exact retryFrom_attempts_le oracle 5 1 (by omega)
  · intro hall
    have h := retryFrom_all_fail oracle 5 1 (by omega)
      (fun j hj hj6 => hall j hj hj6)
    simp [get_ncbi_taxonomy, h, shuffleSpeciesToEnd]
  · intro k l hk1 hk6 hok hfail
    have h := retryFrom_first_success oracle (k - 1) 1 k l (by omega) hk1 hk6 hok
      (fun j hj hjk => hfail j hj hjk)
    simp only [get_ncbi_taxonomy, h]
    have : k - 1 + 1 = k := by omega
    simp [this]
  · intro taxId cached0 hmiss
    simp only [load_cached_information, hmiss]
    exact ⟨lookup_append_right _ _ _ hmiss, rfl⟩

/-- Witness for C6 at concrete inputs: an oracle failing on attempts
1-4 and succeeding on attempt 5 yields the attempt-5 lineage after 5
attempts and 4 sleeps; an always-failing oracle yields the empty
lineage after 5 attempts and 5 sleeps; and the miss path of
`load_cached_information` persists the fetched value. -/
theorem c6_retry_policy_witness :
    get_ncbi_taxonomy (fun k => if k = 5 then some [⟨"Bacillus", "1386", "genus"⟩] else none)
      = ⟨[⟨"Bacillus", "1386", "genus"⟩], 5, 4⟩ ∧
    get_ncbi_taxonomy (fun _ => none) = ⟨[], 5, 5⟩ ∧
    (load_cached_information "1386" ⟨none⟩
        (fun k => if k = 5 then some [⟨"Bacillus", "1386", "genus"⟩] else none) true).cached.lookup "1386"
      = some [⟨"Bacillus", "1386", "genus"⟩] := by
  have h1 := (c6_retry_policy
    (fun k => if k = 5 then some [⟨"Bacillus", "1386", "genus"⟩] else none)).2.2.1
    5 [⟨"Bacillus", "1386", "genus"⟩] (by omega) (by omega) (by simp)
    (by intro j h1 h2; simp; omega)
  have h2 := (c6_retry_policy (fun _ => none)).2.1 (fun j _ _ => rfl)
  have h3 := ((c6_retry_policy
    (fun k => if k = 5 then some [⟨"Bacillus", "1386", "genus"⟩] else none)).2.2.2
    "1386" ⟨none⟩ (by simp [List.lookup])).1
  refine ⟨?_, h2, ?_⟩
  · rw [h1]; simp [shuffleSpeciesToEnd]
  · rw [h3, h1]; simp [shuffleSpeciesToEnd]

/-- C9: when the taxon id is already in the cache, the lookup returns
exactly the stored lineage, performs no remote fetch attempt (and no
sleep), and the mapping written back to storage is exactly the mapping
that was already stored. -/
theorem c9_cache_hit_no_io (taxId : String) (m : TaxMap) (v : List Taxon)
    (oracle : Nat → Option (List Taxon)) (h : m.lookup taxId = some v) :
    (load_cached_information taxId ⟨some m⟩ oracle true).cached.lookup taxId = some v ∧
    (load_cached_information taxId ⟨some m⟩ oracle true).cached = m ∧
    (load_cached_information taxId ⟨some m⟩ oracle true).fetchAttempts = 0 ∧
    (load_cached_information taxId ⟨some m⟩ oracle true).sleeps = 0 ∧
    (load_cached_information taxId ⟨some m⟩ oracle true).saved = some m := by
  simp [load_cached_information, h]

/-- Witness for C9 at a concrete cache: a one-entry taxonomy map is hit
and returned unchanged with zero fetch attempts. -/
theorem c9_cache_hit_no_io_witness :
    (load_cached_information "1386"
        ⟨some [("1386", [⟨"Bacillus", "1386", "genus"⟩])]⟩
        (fun _ => none) true).cached.lookup "1386"
      = some [⟨"Bacillus", "1386", "genus"⟩] ∧
    (load_cached_information "1386"
        ⟨some [("1386", [⟨"Bacillus", "1386", "genus"⟩])]⟩
        (fun _ => none) true).fetchAttempts = 0 := by
  have h := c9_cache_hit_no_io "1386" [("1386", [⟨"Bacillus", "1386", "genus"⟩])]
    [⟨"Bacillus", "1386", "genus"⟩] (fun _ => none) (by simp [List.lookup])
  exact ⟨h.1, h.2.2.1⟩

/-- Python truthiness of an optional string: `None` and `""` are falsy,
any other string is truthy. -/
def truthy : Option String → Bool
  | none => false
  | some s => s != ""

/-- One entry of `cds_feature.gene_functions` as read by
`generate_html` (`html_output.py` lines 55-62): the function label, the
producing tool and its description. -/
structure GeneFunctionRecord where
  function : String
  tool : String
  description : String
deriving DecidableEq, Repr

/-- A local CDS feature, restricted to the fields the matcher reads:
the three identifiers, the mutable `product`, and the
`gene_functions` of the feature. Coordinates and sequences belong to the external
record model and are not consulted by the matching logic. -/
structure CDSFeature where
  locus_tag : Option String
  protein_id : Option String
  gene : Option String
  product : Option String
  gene_functions : List GeneFunctionRecord
deriving DecidableEq, Repr

/-- The match test of `generate_html` (`html_output.py` line 67):
`annot["id"] == cds_feature.locus_tag or annot["id"] ==
cds_feature.protein_id or (name and name == cds_feature.gene)` with
`name = annot.get("name")`. -/
def htmlAnnotationMatches (annot : GeneAnnotationEntry) (f : CDSFeature) : Bool :=
  (some annot.id == f.locus_tag) || (some annot.id == f.protein_id) ||
    (match annot.name with
     | some n => (n != "") && (f.gene == some n)
     | none => false)

/-- The `for i, annot in enumerate(annots): ... break` search plus the
`annots.pop(annot_idx)` of `generate_html` (`html_output.py` lines
64-71): the first matching entry together with the pool it leaves
behind, or `none` when nothing in the pool matches. -/
def extractFirstMatch (f : CDSFeature) :
    List GeneAnnotationEntry → Option (GeneAnnotationEntry × List GeneAnnotationEntry)
  | [] => none
  | a :: rest =>
    if htmlAnnotationMatches a f then
      some (a, rest)
    else
      match extractFirstMatch f rest with
      | some (m, rest2) => some (m, a :: rest2)
      | none => none

/-- The evidence rendering of `generate_html` (`html_output.py` line
80): one HTML span per evidence code, keyed by its first character
(`evidence[0]`). -/
def evidenceSpan (evidence : String) : String :=
  "<span class=\x27mibig-gf-evidence-" ++ evidence.take 1 ++ "\x27 title=\x27"
    ++ evidence ++ "\x27>" ++ evidence.take 1 ++ "</span>"

/-- The function-description rendering of `generate_html`
(`html_output.py` lines 72-81): the category, then the comma-joined
tailoring tags in parentheses when the entry has a `tailoring` key
(a lone space otherwise), then the rendered evidence codes. -/
def renderFunctionText (annot : GeneAnnotationEntry) (fn : GeneFunction) : String :=
  fn.category ++
    (match annot.tailoring with
     | some tags => " (" ++ String.intercalate ", " tags ++ ") "
     | none => " ") ++
    "(evidence: " ++ String.join (fn.evidence.map evidenceSpan) ++ ")"

/-- The per-feature `gene` dict of `generate_html` (`html_output.py`
lines 43-54), restricted to the fields the matching/mutation logic
touches (the positional and sequence fields are copied verbatim from
the external record layer and omitted here). The dict literal carries
no `"mut_pheno"` key, embedded as `mut_pheno = none`. -/
structure GeneEntry where
  locus_tag : Option String
  protein_id : Option String
  gene : Option String
  product : Option String
  functions : List String
  mut_pheno : Option String
deriving DecidableEq, Repr

/-- Construction of the `gene` dict (`html_output.py` lines 43-63):
fields copied from the feature, plus the pre-match `functions` list.
In the source loop, entries whose tool is not `"mibig"` are skipped by
`continue`; for the remaining (tool = `"mibig"`) entries the
`rule-based-clusters` / `smcogs` branches cannot fire, so the appended
text is `str(function.function)` alone. -/
def makeGeneEntry (f : CDSFeature) : GeneEntry :=
  { locus_tag := f.locus_tag, protein_id := f.protein_id, gene := f.gene,
    product := f.product,
    functions := f.gene_functions.filterMap (fun gf =>
      if gf.tool == "mibig" then some gf.function else none),
    mut_pheno := none }

/-- The mutation applied to a `gene` dict once an entry has been popped
for it (`html_output.py` lines 71-87): append one rendered
function-description per function of the entry, then the
mutation-phenotype line gated on `"mut_pheno" in gene` (the *gene*
dict, exactly as in the source), then the product override gated on
`"product" in annot`. -/
def applyAnnotationToGene (annot : GeneAnnotationEntry) (gene : GeneEntry) : GeneEntry :=
  let gene1 := { gene with
    functions := gene.functions ++ annot.functions.map (renderFunctionText annot) }
  let gene2 :=
    match gene1.mut_pheno with
    | some mp => { gene1 with functions := gene1.functions ++ ["Mutation phenotype: " ++ mp] }
    | none => gene1
  match annot.product with
  | some p => { gene2 with product := some p }
  | none => gene2

/-- Result of the scan of `generate_html` over the local features
(`html_output.py` lines 40-106): the per-feature `gene` dicts in scan
order, the entries consumed from the pool in consumption order, and
the leftover entries still in `annots` afterwards (rendered as
annotation-only rows by lines 89-106). -/
structure ReconcileResult where
  genes : List GeneEntry
  consumed : List GeneAnnotationEntry
  leftover : List GeneAnnotationEntry
deriving DecidableEq, Repr

/-- The feature scan of `generate_html` (`html_output.py` lines
42-88): for each feature in caller-supplied order, search the mutable
pool for the first matching entry; on a match pop it and apply the
mutation, otherwise leave the `gene` dict untouched. -/
def processFeatures : List GeneAnnotationEntry → List CDSFeature → ReconcileResult
  | annots, [] => ⟨[], [], annots⟩
  | annots, f :: fs =>
    match extractFirstMatch f annots with
    | some (a, rest) =>
      let r := processFeatures rest fs
      ⟨applyAnnotationToGene a (makeGeneEntry f) :: r.genes, a :: r.consumed, r.leftover⟩
    | none =>
      let r := processFeatures annots fs
      ⟨makeGeneEntry f :: r.genes, r.consumed, r.leftover⟩

/-- Which identifier matched in the `mibig_loader` re-annotation chain. -/
inductive MatchKind where
  | byLocusTag
  | byProteinId
  | byName
deriving DecidableEq, Repr

/-- First comparison of the loader chain (`mibig.py` line 116):
`locus_tag and annot["id"] == locus_tag`. -/
def locusTagMatches (annot : GeneAnnotationEntry) (f : CDSFeature) : Bool :=
  truthy f.locus_tag && (some annot.id == f.locus_tag)

/-- Second comparison of the loader chain (`mibig.py` line 118):
`protein_id and annot["id"] == protein_id`. -/
def proteinIdMatches (annot : GeneAnnotationEntry) (f : CDSFeature) : Bool :=
  truthy f.protein_id && (some annot.id == f.protein_id)

/-- Third comparison of the loader chain (`mibig.py` line 120):
`name and annot.get("name", None) == name` with `name =
cds_feature.gene`. -/
def geneNameMatches (annot : GeneAnnotationEntry) (f : CDSFeature) : Bool :=
  truthy f.gene && (annot.name == f.gene)

/-- The `if`/`elif`/`elif`/`else: continue` chain of `mibig_loader`
(`mibig.py` lines 116-123), embedded as which comparison fired first
(`none` = the `continue` branch). -/
def loaderMatchKind (annot : GeneAnnotationEntry) (f : CDSFeature) : Option MatchKind :=
  if truthy f.locus_tag && (some annot.id == f.locus_tag) then some .byLocusTag
  else if truthy f.protein_id && (some annot.id == f.protein_id) then some .byProteinId
  else if truthy f.gene && (annot.name == f.gene) then some .byName
  else none

/-- The re-annotation of one CDS feature by `mibig_loader` (`mibig.py`
lines 111-125): the identifiers are read once from the feature, then
*every* annotation entry in document order is tested and every
matching entry with a `product` key overwrites the product of the feature;
the loop removes nothing from the annotation list. -/
def reannotateCDSFeature (annots : List GeneAnnotationEntry) (f : CDSFeature) : CDSFeature :=
  annots.foldl (fun cur annot =>
    if (loaderMatchKind annot f).isSome then
      match annot.product with
      | some p => { cur with product := some p }
      | none => cur
    else cur) f

/-- The re-annotation loop of `mibig_loader` over all features within
the area (`mibig.py` lines 111-125). -/
def reannotateFeatures (annots : List GeneAnnotationEntry)
    (features : List CDSFeature) : List CDSFeature :=
  features.map (reannotateCDSFeature annots)

/-- The exon translation of `mibig_loader` (`mibig.py` line 105):
`FeatureLocation(exon["start"] - 1, exon["end"],
strand=gene["location"]["strand"])` for every exon, in input order —
note the strand is the location-level strand for every exon. -/
def exonsToLocations (loc : GeneLocation) : List FeatureLocation :=
  loc.exons.map (fun exon => ⟨exon.start - 1, exon.stop, loc.strand⟩)

/-- The location assembly of `mibig_loader` (`mibig.py` line 106):
`CompoundLocation(exons) if len(exons) > 1 else exons[0]`; an empty
exon list makes `exons[0]` raise `IndexError`, embedded as `none`. -/
def buildExtraGeneLocation (loc : GeneLocation) : Option Location :=
  let exons := exonsToLocations loc
  if exons.length > 1 then
    some (.compound exons)
  else
    match exons with
    | [] => none
    | e :: _ => some (.simple e)

/-- The synthetic feature built for an extra gene (`mibig.py` lines
103-108): `CDSFeature(location=..., locus_tag=gene["id"],
translation=...)`. -/
structure SynthesizedCDS where
  locus_tag : String
  location : Location
  translation : String
deriving DecidableEq, Repr

/-- The extra-gene synthesis of `mibig_loader` (`mibig.py` lines
102-109): only entries with both an `id` and a `location` key produce
a feature; the translation falls back to the translation by the record
of the assembled location when the entry supplies none. -/
def synthesizeExtraGene (recordAaTranslation : Location → String)
    (gene : ExtraGene) : Option SynthesizedCDS :=
  match gene.id, gene.location with
  | some gid, some loc =>
    (buildExtraGeneLocation loc).map (fun location =>
      ⟨gid, location, gene.translation.getD (recordAaTranslation location)⟩)
  | _, _ => none

/-- A minimal curated gene annotation entry used by concrete witnesses. -/
def sampleGeneAnnot : GeneAnnotationEntry :=
  ⟨"gene1", none, none, [], none, none⟩

/-- A minimal extra gene entry used by concrete witnesses. -/
def sampleExtraGene : ExtraGene :=
  ⟨some "gX", none, none⟩

/-- A concrete curated document (accession AB123, range 100-5000,
three gene annotations, one extra gene) used by concrete witnesses. -/
def sampleDocument : Document :=
  ⟨⟨["NRP"], ⟨"AB123", some 100, some 5000⟩,
    some ⟨[sampleGeneAnnot, sampleGeneAnnot, sampleGeneAnnot],
          [sampleExtraGene]⟩, "1386"⟩⟩

/-- The prior signature matching `sampleDocument`. -/
def samplePrev : PrevResult :=
  ⟨"AB123", (100, 5000),
   [sampleGeneAnnot, sampleGeneAnnot, sampleGeneAnnot],
   [sampleExtraGene]⟩

/-- C2: the reuse decision is `none` (reuse permitted) exactly when all
four checks pass — accession equal (exact string equality), both
coordinates equal under the shared `-1` "not set" sentinel, and the two
entry counts equal — and when a check fails, the first failing check in
this fixed order is the one reported. -/
theorem c2_reuse_decision (data : Document) (prev : PrevResult) :
    (checkReuse data prev = none ↔
      (data.cluster.loci.accession = prev.record_id ∧
       data.cluster.loci.start_coord.getD (-1) = prev.coords.1 ∧
       data.cluster.loci.end_coord.getD (-1) = prev.coords.2 ∧
       data.cluster.gene_annotations.length = prev.gene_annotations.length ∧
       data.cluster.extra_gene_entries.length = prev.extra_genes.length)) ∧
    (data.cluster.loci.accession ≠ prev.record_id →
      checkReuse data prev = some .recordIdMismatch) ∧
    (data.cluster.loci.accession = prev.record_id →
      (data.cluster.loci.start_coord.getD (-1) ≠ prev.coords.1 ∨
       data.cluster.loci.end_coord.getD (-1) ≠ prev.coords.2) →
      checkReuse data prev = some .coordsMismatch) ∧
    (data.cluster.loci.accession = prev.record_id →
      data.cluster.loci.start_coord.getD (-1) = prev.coords.1 →
      data.cluster.loci.end_coord.getD (-1) = prev.coords.2 →
      data.cluster.gene_annotations.length ≠ prev.gene_annotations.length →
      checkReuse data prev = some .geneAnnotationsChanged) ∧
    (data.cluster.loci.accession = prev.record_id →
      data.cluster.loci.start_coord.getD (-1) = prev.coords.1 →
      data.cluster.loci.end_coord.getD (-1) = prev.coords.2 →
      data.cluster.gene_annotations.length = prev.gene_annotations.length →
      data.cluster.extra_gene_entries.length ≠ prev.extra_genes.length →
      checkReuse data prev = some .extraGenesChanged) := by
  simp only [checkReuse]
  split_ifs with h1 h2 h3 h4 <;>
    refine ⟨?_, ?_, ?_, ?_, ?_⟩ <;> simp_all <;> tauto

/-- Witness for C2 at the concrete inputs of the test in the specification:
signature `{accession AB123, range (100, 5000), 3 gene annotations, 1
extra gene}` against a matching document permits reuse; raising the
gene annotation count of the signature to 4 fails with the
annotation-count check as the reported reason. -/
theorem c2_reuse_decision_witness :
    checkReuse sampleDocument samplePrev = none ∧
    checkReuse sampleDocument
        { samplePrev with
          gene_annotations := sampleGeneAnnot :: samplePrev.gene_annotations }
      = some .geneAnnotationsChanged := by
  constructor
  · exact (c2_reuse_decision sampleDocument samplePrev).1.mpr
      ⟨rfl, rfl, rfl, rfl, rfl⟩
  · exact (c2_reuse_decision sampleDocument _).2.2.2.1 rfl rfl rfl (by decide)

/-- C3: whenever any reuse check fails, `from_json` does not return a
result: the outcome is `sys.exit(1)` — a process-terminating, non-zero
exit with no partial result. -/
theorem c3_reuse_failure_exits (prev : PrevResult) (record : Record) (data : Document)
    (cached0 : CachedData) (oracle : Nat → Option (List Taxon)) (r : ReuseFailure)
    (h : checkReuse data prev = some r) :
    MibigAnnotations.from_json prev record data cached0 oracle = .exited 1 := by
  simp only [MibigAnnotations.from_json, h]

/-- Witness for C3 at a concrete input: a signature whose record id
differs from the accession of the document makes `from_json` exit with
status 1. -/
theorem c3_reuse_failure_exits_witness :
    MibigAnnotations.from_json { samplePrev with record_id := "XY999" }
      ⟨"AB123", 9000⟩ sampleDocument ⟨none⟩ (fun _ => none) = .exited 1 :=
  c3_reuse_failure_exits _ _ _ _ _ .recordIdMismatch (by decide)

/-- C10: `from_json` never produces the Python `None` of its declared
`Optional` return type: every run either returns a constructed
`MibigAnnotations` value, exits the process with status 1, or raises
the accession assertion of the constructor — the three cases below are
exhaustive, so the caller can never observe `returned none`. -/
theorem c10_from_json_never_returns_none (prev : PrevResult) (record : Record)
    (data : Document) (cached0 : CachedData) (oracle : Nat → Option (List Taxon)) :
    (∃ result, MibigAnnotations.from_json prev record data cached0 oracle
        = .returned (some result)) ∨
    MibigAnnotations.from_json prev record data cached0 oracle = .exited 1 ∨
    MibigAnnotations.from_json prev record data cached0 oracle = .assertionFailed := by
  simp only [MibigAnnotations.from_json]
  split
  · right; left; rfl
  · split
    · left; exact ⟨_, rfl⟩
    · right; right; rfl

theorem extractFirstMatch_perm (f : CDSFeature) :
    ∀ annots a rest, extractFirstMatch f annots = some (a, rest) →
      (a :: rest).Perm annots := by
  intro annots
  induction annots with
  | nil => intro a rest h; simp [extractFirstMatch] at h
  | cons x xs ih =>
    intro a rest h
    simp only [extractFirstMatch] at h
    by_cases hm : htmlAnnotationMatches x f
    · rw [if_pos hm] at h
      simp only [Option.some.injEq, Prod.mk.injEq] at h
      obtain ⟨ha, hr⟩ := h
      subst ha
      subst hr
      exact List.Perm.refl _
    · rw [if_neg hm] at h
      cases hx : extractFirstMatch f xs with
      | none => rw [hx] at h; simp at h
      | some pair =>
        obtain ⟨m, rest2⟩ := pair
        rw [hx] at h
        simp only [Option.some.injEq, Prod.mk.injEq] at h
        obtain ⟨ha, hr⟩ := h
        subst ha
        subst hr
        exact (List.Perm.swap x m rest2).trans ((ih m rest2 hx).cons x)

theorem processFeatures_perm :
    ∀ features annots,
      ((processFeatures annots features).consumed
        ++ (processFeatures annots features).leftover).Perm annots := by
  intro features
  induction features with
  | nil => intro annots; simp [processFeatures]
  | cons f fs ih =>
    intro annots
    simp only [processFeatures]
    cases h : extractFirstMatch f annots with
    | none => simpa using ih annots
    | some pair =>
      obtain ⟨a, rest⟩ := pair
      have hperm := extractFirstMatch_perm f annots a rest h
      simp only [List.cons_append]
      exact ((ih rest).cons a).trans hperm

/-- A curated entry carrying a gene symbol and a product override,
used by concrete witnesses and counterexamples. -/
def namedAnnot : GeneAnnotationEntry :=
  ⟨"idA", some "actA", some "ProductP", [], none, none⟩

/-- A feature identified only by gene symbol `actA`, used by concrete
witnesses and counterexamples. -/
def featureNamedActA : CDSFeature :=
  ⟨none, none, some "actA", none, []⟩

/-- C1 (amended): in the pool-based matcher of `generate_html` each
curated entry is consumed by at most one feature — the consumed
entries together with the leftover pool are a permutation of the
original pool, so no entry occurrence is consumed twice — and when two
features could both match the same single-entry pool, only the first
feature in scan order receives the mutation while the second is left
untouched. (In the re-annotation loop of `mibig_loader`, by contrast,
entries are never removed; see the counterexample.) -/
theorem c1_pool_entries_consumed_at_most_once
    (annots : List GeneAnnotationEntry) (features : List CDSFeature) :
    ((processFeatures annots features).consumed
      ++ (processFeatures annots features).leftover).Perm annots ∧
    (∀ a f1 f2, htmlAnnotationMatches a f1 = true → htmlAnnotationMatches a f2 = true →
      processFeatures [a] [f1, f2] =
        ⟨[applyAnnotationToGene a (makeGeneEntry f1), makeGeneEntry f2], [a], []⟩) := by
  constructor
  · exact processFeatures_perm features annots
  · intro a f1 f2 h1 h2
    simp [processFeatures, extractFirstMatch, h1, h2]

/-- Witness for C1 at concrete inputs: two features that both match
one entry by gene symbol; only the first receives the product and
function mutation, the second `gene` dict stays unmutated, the entry
is consumed once and the pool is left empty. -/
theorem c1_pool_entries_consumed_at_most_once_witness :
    processFeatures [namedAnnot] [featureNamedActA, featureNamedActA] =
      ⟨[applyAnnotationToGene namedAnnot (makeGeneEntry featureNamedActA),
        makeGeneEntry featureNamedActA], [namedAnnot], []⟩ ∧
    (applyAnnotationToGene namedAnnot (makeGeneEntry featureNamedActA)).product
      = some "ProductP" ∧
    (makeGeneEntry featureNamedActA).product = none :=
  ⟨((c1_pool_entries_consumed_at_most_once [] []).2 namedAnnot featureNamedActA
      featureNamedActA (by decide) (by decide)),
   by decide, by decide⟩

/-- Counterexample to C1 as stated: in the `mibig_loader`
re-annotation loop (one of the code paths the claim cites) a curated
entry is never removed after matching, so a single entry matching two
features by gene symbol mutates the product of *both* — not only the
first feature in scan order, whose predicted outcome
`[some "ProductP", none]` the loop does not produce. -/
theorem c1_loader_double_mutation_counterexample :
    (reannotateFeatures [namedAnnot] [featureNamedActA, featureNamedActA]).map
        CDSFeature.product = [some "ProductP", some "ProductP"] ∧
    ((reannotateFeatures [namedAnnot] [featureNamedActA, featureNamedActA]).map
        CDSFeature.product == [some "ProductP", none]) = false := by
  constructor
  · decide
  · decide

/-- C4: the loader matching chain consults the three identifiers in
the fixed priority order locus tag, then protein id, then gene symbol:
a lower-priority comparison decides the match only when every
higher-priority comparison fails, and the chain matches by that
comparison exactly when it is the first to succeed. -/
theorem c4_first_match_wins_priority (annot : GeneAnnotationEntry) (f : CDSFeature) :
    (loaderMatchKind annot f = some .byLocusTag ↔ locusTagMatches annot f = true) ∧
    (loaderMatchKind annot f = some .byProteinId ↔
      (locusTagMatches annot f = false ∧ proteinIdMatches annot f = true)) ∧
    (loaderMatchKind annot f = some .byName ↔
      (locusTagMatches annot f = false ∧ proteinIdMatches annot f = false ∧
        geneNameMatches annot f = true)) ∧
    (loaderMatchKind annot f = none ↔
      (locusTagMatches annot f = false ∧ proteinIdMatches annot f = false ∧
        geneNameMatches annot f = false)) := by
  simp only [loaderMatchKind, locusTagMatches, proteinIdMatches, geneNameMatches]
  split_ifs with h1 h2 h3 <;> simp_all

/-- C5 (amended): the synthesized extra-gene location translates every
exon from 1-based inclusive to 0-based half-open (start decremented,
end unchanged) preserving input order; one exon yields a simple
location and two or more yield one compound location; but every part
carries the location-level strand `gene["location"]["strand"]`, not a
per-exon strand. -/
theorem c5_exon_translation (loc : GeneLocation) :
    (∀ e, loc.exons = [e] →
      buildExtraGeneLocation loc = some (.simple ⟨e.start - 1, e.stop, loc.strand⟩)) ∧
    (2 ≤ loc.exons.length →
      buildExtraGeneLocation loc = some (.compound (exonsToLocations loc))) ∧
    (exonsToLocations loc).length = loc.exons.length ∧
    (∀ (i : Nat) (e : Exon), loc.exons[i]? = some e →
      (exonsToLocations loc)[i]? = some (⟨e.start - 1, e.stop, loc.strand⟩ : FeatureLocation)) := by
  refine ⟨?_, ?_, ?_, ?_⟩
  · intro e he
    simp [buildExtraGeneLocation, exonsToLocations, he]
  · intro h2
    have hlen : (exonsToLocations loc).length = loc.exons.length := by
      simp [exonsToLocations]
    rw [buildExtraGeneLocation]
    rw [if_pos (by omega)]
  · simp [exonsToLocations]
  · intro i e he
    simp [exonsToLocations, List.getElem?_map, he]

/-- Witness for C5 at the round-trip input of the specification: a single
exon `{start 101, end 200}` on a `+1`-strand location synthesizes the
simple span `[100, 200)` with strand `+1`; a two-exon location
synthesizes one compound location with both starts decremented, ends
unchanged, in input order. -/
theorem c5_exon_translation_witness :
    buildExtraGeneLocation ⟨[⟨101, 200, some 1⟩], some 1⟩
      = some (.simple ⟨100, 200, some 1⟩) ∧
    buildExtraGeneLocation ⟨[⟨101, 200, some 1⟩, ⟨301, 400, some 1⟩], some 1⟩
      = some (.compound [⟨100, 200, some 1⟩, ⟨300, 400, some 1⟩]) := by
  constructor
  · have h := (c5_exon_translation ⟨[⟨101, 200, some 1⟩], some 1⟩).1
      ⟨101, 200, some 1⟩ rfl
    simpa using h
  · have h := (c5_exon_translation ⟨[⟨101, 200, some 1⟩, ⟨301, 400, some 1⟩], some 1⟩).2.1
      (by decide)
    simpa [exonsToLocations] using h

/-- Counterexample to C5 as stated: a location whose strand is `+1`
but whose second exon carries its own strand `-1` synthesizes both
compound parts with strand `+1` — the loader reads only
`gene["location"]["strand"]` and ignores the per-exon strand, so the
claimed per-exon-strand output `[+1, -1]` is not produced. -/
theorem c5_per_exon_strand_counterexample :
    (exonsToLocations ⟨[⟨101, 200, some 1⟩, ⟨301, 400, some (-1)⟩], some 1⟩).map
        FeatureLocation.strand = [some 1, some 1] ∧
    (⟨[⟨101, 200, some 1⟩, ⟨301, 400, some (-1)⟩], some 1⟩ : GeneLocation).exons.map
        Exon.strand = [some 1, some (-1)] ∧
    ((exonsToLocations ⟨[⟨101, 200, some 1⟩, ⟨301, 400, some (-1)⟩], some 1⟩).map
        FeatureLocation.strand ==
      (⟨[⟨101, 200, some 1⟩, ⟨301, 400, some (-1)⟩], some 1⟩ : GeneLocation).exons.map
        Exon.strand) = false := by
  refine ⟨by decide, by decide, by decide⟩

/-- A matched curated entry carrying a mutation phenotype, for C8. -/
def mutPhenoAnnot : GeneAnnotationEntry :=
  ⟨"idA", some "actA", none, [⟨"Tailoring", ["Sequence-based prediction"]⟩],
   none, some "abolished production"⟩

/-- C8 evaluated at a failing input: an entry with
`mut_pheno = "abolished production"` is matched and consumed, yet the
recorded mutation contains only the rendered function description and
no mutation-phenotype line — the source gates the line on
`"mut_pheno" in gene`, a dict constructed without that key, so the
branch can never fire. -/
theorem c8_mut_pheno_line_never_rendered :
    (processFeatures [mutPhenoAnnot] [featureNamedActA]).consumed
      = [mutPhenoAnnot] ∧
    mutPhenoAnnot.mut_pheno = some "abolished production" ∧
    (processFeatures [mutPhenoAnnot] [featureNamedActA]).genes.map
        GeneEntry.functions
      = [[renderFunctionText mutPhenoAnnot
            ⟨"Tailoring", ["Sequence-based prediction"]⟩]] ∧
    ((processFeatures [mutPhenoAnnot] [featureNamedActA]).genes.map
        GeneEntry.functions ==
      [[renderFunctionText mutPhenoAnnot
          ⟨"Tailoring", ["Sequence-based prediction"]⟩,
        "Mutation phenotype: abolished production"]]) = false := by
  refine ⟨by decide, by decide, by decide, by decide⟩

end MibigModel
